import Mathlib

/-!
Verification of the next-dhcp protocol engine.

Shallow embedding of src/config/dhcp.py (DHCPServerConfiguration) and
src/core/dhcp.py (Session state machine, DHCPServer sweep).  IPv4
addresses are natural numbers below 2^32; MAC addresses are natural
numbers.  The HostDatabase lease store (module dhcp.core.database) is
not among the sources, so it is modelled from the specification of the
Lease Store (spec section 4.3); everything else is translated from the
Python source.
-/

namespace NextDHCP

/-- An IPv4 network, as in Python ipaddress.IPv4Network: a network
address and a prefix length. -/
structure IPv4Network where
  address : Nat
  prefixlen : Nat
deriving Repr, DecidableEq

/-- Python network.broadcast_address: the highest address of the
network. -/
def IPv4Network.broadcast_address (n : IPv4Network) : Nat :=
  n.address + 2 ^ (32 - n.prefixlen) - 1

/-- Python membership test on networks: an address is in the network when
it lies between the network address and the broadcast address,
inclusive. -/
def IPv4Network.mem (n : IPv4Network) (ip : Nat) : Bool :=
  decide (n.address ≤ ip) && decide (ip ≤ n.broadcast_address)

/-- The DHCPServerConfiguration dataclass (src/config/dhcp.py lines
56-65), restricted to the fields the protocol engine reads.  The field
range is the inclusive allocation range as two 32-bit integers;
server_ip stays none until an interface address is chosen. -/
structure DHCPServerConfiguration where
  network : IPv4Network
  range : Nat × Nat
  router : Nat
  lease_time : Nat
  server_ip : Option Nat
deriving Repr, DecidableEq

/-- Property dhcp_range_len (src/config/dhcp.py lines 67-69):
self.range[1] - self.range[0], over the integers as in Python. -/
def DHCPServerConfiguration.dhcp_range_len (c : DHCPServerConfiguration) : Int :=
  (c.range.2 : Int) - (c.range.1 : Int)

/-- Method check (src/config/dhcp.py lines 71-82): raises
InvalidDHCPConfiguration when server_ip is unset, when either range
endpoint is not in the network, or when dhcp_range_len < 2; the router
test only warns and never raises. -/
def DHCPServerConfiguration.check (c : DHCPServerConfiguration) : Except String Unit :=
  match c.server_ip with
  | none => Except.error "No valid IPs on any interface"
  | some _ =>
    if !(c.network.mem c.range.1) || !(c.network.mem c.range.2) then
      Except.error "Bad DHCP range: not in network"
    else if c.dhcp_range_len < 2 then
      Except.error "Bad DHCP range: range is too small"
    else
      Except.ok ()

/-- Method in_range (src/config/dhcp.py lines 84-86): the source tests
membership of the address in self.network — the network prefix, not the
allocation range. -/
def DHCPServerConfiguration.in_range (c : DHCPServerConfiguration) (ip : Nat) : Bool :=
  c.network.mem ip

/-- The default configuration values (src/config/dhcp.py lines 59-65):
network 10.15.0.0/24, range 10.47.0.1 – 10.47.0.254, router 10.15.0.1,
lease time 300 seconds, no server IP chosen yet. -/
def defaultCfg : DHCPServerConfiguration :=
  ⟨⟨168755200, 24⟩, (170852353, 170852606), 168755201, 300, none⟩

/-- A lease row: MAC → IP with an optional hostname (spec section 3). -/
structure Lease where
  mac : Nat
  ip : Nat
  hostname : Option String
deriving Repr, DecidableEq

/-- Modelled from the spec: the Lease Store state (HostDatabase of
module dhcp.core.database, which is not among the sources).  It owns the
durable mapping MAC → IP; the configuration supplies the allocation
range. -/
structure HostDatabase where
  conf : DHCPServerConfiguration
  leases : List Lease
deriving Repr, DecidableEq

/-- Modelled from the spec: HostDatabase.get, a "pure lookup, no
mutation" of the lease recorded for a MAC (spec section 4.3). -/
def HostDatabase.get (db : HostDatabase) (mac : Nat) : Option Lease :=
  db.leases.find? (fun l => l.mac == mac)

/-- The IP addresses currently assigned to some lease. -/
def HostDatabase.assignedIPs (db : HostDatabase) : List Nat :=
  db.leases.map (fun l => l.ip)

/-- The candidate addresses of the inclusive allocation range, in the
deterministic scan order (lowest first). -/
def rangeIPs (c : DHCPServerConfiguration) : List Nat :=
  (List.range (c.range.2 + 1 - c.range.1)).map (fun k => c.range.1 + k)

/-- Modelled from the spec: the free-address pick inside
find_or_register — "preferring requested_ip_hint if it lies in range and
is unassigned, else the next available address by a deterministic scan
order" (spec section 4.3); none when the range is exhausted. -/
def HostDatabase.allocateIP (db : HostDatabase) (req_ip : Nat) : Option Nat :=
  if db.conf.range.1 ≤ req_ip ∧ req_ip ≤ db.conf.range.2 ∧ req_ip ∉ db.assignedIPs then
    some req_ip
  else
    (rangeIPs db.conf).find? (fun ip => decide (ip ∉ db.assignedIPs))

/-- Modelled from the spec: HostDatabase.find_or_register(mac, req_ip,
hostname) — called find_or_allocate in spec section 4.3 — "returns the
existing lease's IP if one exists for mac; otherwise picks a free
address from the configured range … and durably records the new lease
before returning it.  Returns NONE (no allocation) when the range is
exhausted."  The caller in src/core/dhcp.py line 74 treats the failure
result as falsy, modelled here by none. -/
def HostDatabase.find_or_register (db : HostDatabase) (mac : Nat) (req_ip : Nat)
    (hostname : Option String) : Option Nat × HostDatabase :=
  match db.get mac with
  | some l => (some l.ip, db)
  | none =>
    match db.allocateIP req_ip with
    | none => (none, db)
    | some ip => (some ip, ⟨db.conf, db.leases ++ [⟨mac, ip, hostname⟩]⟩)

/-- The DHCP message types of the DHCPMessages enum (src/core/dhcp.py
lines 18-26). -/
inductive DHCPMessages where
  | DHCPDISCOVER
  | DHCPOFFER
  | DHCPREQUEST
  | DHCPDECLINE
  | DHCPACK
  | DHCPNAK
  | DHCPRELEASE
  | DHCPINFORM
deriving Repr, DecidableEq

/-- The BOOTP operation code of a packet. -/
inductive DHCPOp where
  | BOOTREQUEST
  | BOOTREPLY
deriving Repr, DecidableEq

/-- A decoded DHCP packet, restricted to the fields the engine reads.
The field msg_type is option 53 decoded against the DHCPMessages enum;
none models a message-type name outside the enum (the KeyError branch of
Session.receive).  The field requested_ip is option 50, hostname is
option 12. -/
structure DHCPPacket where
  op : DHCPOp
  chaddr : Nat
  xid : Nat
  ciaddr : Nat
  yiaddr : Nat
  msg_type : Option DHCPMessages
  requested_ip : Option Nat
  hostname : Option String
deriving Repr, DecidableEq

/-- An outbound broadcast produced by the session (the packets passed to
DHCPServer.broadcast). -/
inductive OutMsg where
  | offer (mac ip : Nat)
  | ack (mac ip : Nat)
  | nak (mac : Nat)
deriving Repr, DecidableEq

/-- A Lease Store access performed while handling one packet. -/
inductive StoreOp where
  | findOrRegister (mac req_ip : Nat) (hostname : Option String)
  | getByMac (mac : Nat)
deriving Repr, DecidableEq

/-- Session state (src/core/dhcp.py lines 31-37): creation time, the
deadline start + 30, the closed flag, and the (never written) packet
list. -/
structure Session where
  start : Nat
  timeout : Nat
  closed : Bool
  packets : List DHCPPacket
deriving Repr, DecidableEq

/-- Construction of a Session at time now (src/core/dhcp.py lines
31-37): timeout = now + 30, closed = False, packets = []. -/
def mkSession (now : Nat) : Session :=
  ⟨now, now + 30, false, []⟩

/-- Method is_done (src/core/dhcp.py lines 39-40): self.closed or
self.timeout < time.time(). -/
def Session.is_done (s : Session) (now : Nat) : Bool :=
  s.closed || decide (s.timeout < now)

/-- Method close (src/core/dhcp.py lines 42-43): sets the closed flag. -/
def Session.close (s : Session) : Session :=
  ⟨s.start, s.timeout, true, s.packets⟩

/-- The result of delivering one packet to a session: the session
afterwards, the lease store afterwards, the broadcasts attempted, and
the lease-store accesses performed. -/
structure RecvResult where
  session : Session
  db : HostDatabase
  out : List OutMsg
  ops : List StoreOp
deriving Repr, DecidableEq

/-- The requested-IP hint computed in Session.send_offer
(src/core/dhcp.py lines 65-69): the value of option 50 when the option
is present, else the packet's ciaddr field. -/
def offerHint (p : DHCPPacket) : Nat :=
  match p.requested_ip with
  | some ip => ip
  | none => p.ciaddr

/-- Method send_offer (src/core/dhcp.py lines 63-84): resolve the hint
and hostname, call find_or_register; when it fails (falsy result) return
without broadcasting, otherwise broadcast an Offer carrying the resolved
IP. -/
def Session.send_offer (s : Session) (db : HostDatabase) (p : DHCPPacket) : RecvResult :=
  match db.find_or_register p.chaddr (offerHint p) p.hostname with
  | (none, db') =>
    ⟨s, db', [], [StoreOp.findOrRegister p.chaddr (offerHint p) p.hostname]⟩
  | (some ip, db') =>
    ⟨s, db', [OutMsg.offer p.chaddr ip], [StoreOp.findOrRegister p.chaddr (offerHint p) p.hostname]⟩

/-- Method send_ack (src/core/dhcp.py lines 86-105): look the MAC up in
the lease store; no lease → Nak; option 50 present and different from
the leased IP → Nak; otherwise Ack carrying the leased IP. -/
def Session.send_ack (s : Session) (db : HostDatabase) (p : DHCPPacket) : RecvResult :=
  match db.get p.chaddr with
  | none => ⟨s, db, [OutMsg.nak p.chaddr], [StoreOp.getByMac p.chaddr]⟩
  | some host =>
    match p.requested_ip with
    | some rip =>
      if host.ip ≠ rip then
        ⟨s, db, [OutMsg.nak p.chaddr], [StoreOp.getByMac p.chaddr]⟩
      else
        ⟨s, db, [OutMsg.ack p.chaddr host.ip], [StoreOp.getByMac p.chaddr]⟩
    | none => ⟨s, db, [OutMsg.ack p.chaddr host.ip], [StoreOp.getByMac p.chaddr]⟩

/-- Method receive (src/core/dhcp.py lines 45-61): a closed session
ignores everything; otherwise non-client packets are ignored; otherwise
dispatch on the decoded message type — Discover → send_offer, Request →
send_ack, unknown code (KeyError) or any other type → log and return. -/
def Session.receive (s : Session) (db : HostDatabase) (p : DHCPPacket) : RecvResult :=
  if s.closed then ⟨s, db, [], []⟩
  else match p.op with
  | DHCPOp.BOOTREPLY => ⟨s, db, [], []⟩
  | DHCPOp.BOOTREQUEST =>
    match p.msg_type with
    | none => ⟨s, db, [], []⟩
    | some DHCPMessages.DHCPDISCOVER => s.send_offer db p
    | some DHCPMessages.DHCPREQUEST => s.send_ack db p
    | some _ => ⟨s, db, [], []⟩

/-- The sweep at the end of DHCPServer._worker (src/core/dhcp.py lines
162-165): every session for which is_done holds is closed and removed
from the table; the rest stay. -/
def sweepSessions (table : List (Nat × Session)) (now : Nat) : List (Nat × Session) :=
  table.filter (fun e => !(e.2.is_done now))

/-- Lease containment: every lease's IP lies in the inclusive allocation
range. -/
def leasesInRange (db : HostDatabase) : Prop :=
  ∀ l ∈ db.leases, db.conf.range.1 ≤ l.ip ∧ l.ip ≤ db.conf.range.2

/-- No two lease rows share a MAC address. -/
def macsDistinct (db : HostDatabase) : Prop :=
  db.leases.Pairwise (fun a b => a.mac ≠ b.mac)

/-- No two lease rows share an IP address. -/
def ipsDistinct (db : HostDatabase) : Prop :=
  db.leases.Pairwise (fun a b => a.ip ≠ b.ip)

/-- The lease-store invariant maintained by allocation. -/
def storeInv (db : HostDatabase) : Prop :=
  macsDistinct db ∧ ipsDistinct db ∧ leasesInRange db

/-- The lease store with no leases yet. -/
def emptyDB (c : DHCPServerConfiguration) : HostDatabase :=
  ⟨c, []⟩

/-- Run a sequence of find_or_register calls (mac, hint, hostname)
against the store, keeping the final state. -/
def runCalls (db : HostDatabase) (calls : List (Nat × Nat × Option String)) : HostDatabase :=
  calls.foldl (fun d c => (d.find_or_register c.1 c.2.1 c.2.2).2) db

/-- Scenario A configuration (spec section 8): network 10.47.0.0/24,
the two-address range [10.47.0.1, 10.47.0.2], server IP 10.47.0.100
inside the network. -/
def scenarioACfg : DHCPServerConfiguration :=
  ⟨⟨170852352, 24⟩, (170852353, 170852354), 170852353, 300, some 170852452⟩

/-! ### Helper lemmas about the lease store -/

theorem find_or_register_of_get_some (db : HostDatabase) (mac req_ip : Nat)
    (hn : Option String) (l : Lease) (h : db.get mac = some l) :
    db.find_or_register mac req_ip hn = (some l.ip, db) := by
  unfold HostDatabase.find_or_register
  rw [h]

theorem find_or_register_of_get_none_none (db : HostDatabase) (mac req_ip : Nat)
    (hn : Option String) (h : db.get mac = none) (ha : db.allocateIP req_ip = none) :
    db.find_or_register mac req_ip hn = (none, db) := by
  unfold HostDatabase.find_or_register
  rw [h, ha]

theorem find_or_register_of_get_none_some (db : HostDatabase) (mac req_ip : Nat)
    (hn : Option String) (ip : Nat) (h : db.get mac = none)
    (ha : db.allocateIP req_ip = some ip) :
    db.find_or_register mac req_ip hn = (some ip, ⟨db.conf, db.leases ++ [⟨mac, ip, hn⟩]⟩) := by
  unfold HostDatabase.find_or_register
  rw [h, ha]

theorem allocateIP_mem (db : HostDatabase) (req_ip ip : Nat)
    (h : db.allocateIP req_ip = some ip) :
    db.conf.range.1 ≤ ip ∧ ip ≤ db.conf.range.2 ∧ ip ∉ db.assignedIPs := by
  unfold HostDatabase.allocateIP at h
  split at h
  case isTrue hc =>
    cases h
    exact hc
  case isFalse =>
    have hp := List.find?_some h
    have hm := List.mem_of_find?_eq_some h
    simp only [rangeIPs, List.mem_map, List.mem_range] at hm
    obtain ⟨k, hk, rfl⟩ := hm
    refine ⟨Nat.le_add_right _ _, by omega, of_decide_eq_true hp⟩

theorem get_append_self (db : HostDatabase) (mac ip : Nat) (hn : Option String)
    (h : db.get mac = none) :
    HostDatabase.get ⟨db.conf, db.leases ++ [⟨mac, ip, hn⟩]⟩ mac = some ⟨mac, ip, hn⟩ := by
  unfold HostDatabase.get at h ⊢
  rw [List.find?_append, h]
  simp [List.find?]

theorem get_eq_none_of_mac_fresh (db : HostDatabase) (mac : Nat)
    (h : db.get mac = none) : ∀ l ∈ db.leases, l.mac ≠ mac := by
  intro l hl
  have := List.find?_eq_none.mp h l hl
  simpa using this

theorem storeInv_preserved (db : HostDatabase) (mac req_ip : Nat) (hn : Option String)
    (h : storeInv db) : storeInv (db.find_or_register mac req_ip hn).2 := by
  cases hg : db.get mac with
  | some l =>
    rw [find_or_register_of_get_some db mac req_ip hn l hg]
    exact h
  | none =>
    cases ha : db.allocateIP req_ip with
    | none =>
      rw [find_or_register_of_get_none_none db mac req_ip hn hg ha]
      exact h
    | some ip =>
      rw [find_or_register_of_get_none_some db mac req_ip hn ip hg ha]
      obtain ⟨hm, hi, hr⟩ := h
      obtain ⟨h1, h2, h3⟩ := allocateIP_mem db req_ip ip ha
      have hmac := get_eq_none_of_mac_fresh db mac hg
      have hip : ∀ l ∈ db.leases, l.ip ≠ ip := by
        intro l hl he
        exact h3 (he ▸ List.mem_map_of_mem (fun l => l.ip) hl)
      refine ⟨?_, ?_, ?_⟩
      · unfold macsDistinct at *
        rw [List.pairwise_append]
        refine ⟨hm, List.pairwise_singleton _ _, ?_⟩
        intro a ha' b hb
        rw [List.mem_singleton] at hb
        subst hb
        exact hmac a ha'
      · unfold ipsDistinct at *
        rw [List.pairwise_append]
        refine ⟨hi, List.pairwise_singleton _ _, ?_⟩
        intro a ha' b hb
        rw [List.mem_singleton] at hb
        subst hb
        exact hip a ha'
      · unfold leasesInRange at *
        intro l hl
        rw [List.mem_append, List.mem_singleton] at hl
        cases hl with
        | inl hold => exact hr l hold
        | inr hnew => subst hnew; exact ⟨h1, h2⟩

theorem storeInv_emptyDB (c : DHCPServerConfiguration) : storeInv (emptyDB c) := by
  refine ⟨List.Pairwise.nil, List.Pairwise.nil, ?_⟩
  intro l hl
  cases hl

theorem storeInv_runCalls (calls : List (Nat × Nat × Option String)) (db : HostDatabase)
    (h : storeInv db) : storeInv (runCalls db calls) := by
  induction calls generalizing db with
  | nil => exact h
  | cons c rest ih => exact ih _ (storeInv_preserved db c.1 c.2.1 c.2.2 h)

/-! ### Claim theorems -/

/-- C1: for every inbound Request processed by an open Session, a MAC
with no lease yields exactly a Nak (never an Ack, and the handler is a
total function, so no fault is thrown); a lease plus a disagreeing
requested-IP option yields a Nak; otherwise an Ack carrying the leased
IP is emitted. -/
theorem request_ack_or_nak (s : Session) (db : HostDatabase) (p : DHCPPacket)
    (hopen : s.closed = false) (hop : p.op = DHCPOp.BOOTREQUEST)
    (hty : p.msg_type = some DHCPMessages.DHCPREQUEST) :
    (db.get p.chaddr = none → (s.receive db p).out = [OutMsg.nak p.chaddr]) ∧
    (∀ host, db.get p.chaddr = some host →
      ((∀ rip, p.requested_ip = some rip → rip ≠ host.ip →
          (s.receive db p).out = [OutMsg.nak p.chaddr]) ∧
        (p.requested_ip = none ∨ p.requested_ip = some host.ip →
          (s.receive db p).out = [OutMsg.ack p.chaddr host.ip]))) := by
  have hrecv : s.receive db p = s.send_ack db p := by
    unfold Session.receive
    rw [hopen, hop, hty]
    rfl
  rw [hrecv]
  constructor
  · intro hget
    unfold Session.send_ack
    rw [hget]
  · intro host hget
    constructor
    · intro rip hrip hne
      simp [Session.send_ack, hget, hrip, Ne.symm hne]
    · intro hcase
      cases hcase with
      | inl hnone => simp [Session.send_ack, hget, hnone]
      | inr hsome => simp [Session.send_ack, hget, hsome]

/-- Witness for C1 at a concrete input: a Request from MAC 1 against an
empty lease store draws a Nak. -/
theorem request_ack_or_nak_witness :
    (Session.receive (mkSession 0) (emptyDB defaultCfg)
        ⟨DHCPOp.BOOTREQUEST, 1, 7, 0, 0, some DHCPMessages.DHCPREQUEST, none, none⟩).out
      = [OutMsg.nak 1] :=
  (request_ack_or_nak (mkSession 0) (emptyDB defaultCfg)
      ⟨DHCPOp.BOOTREQUEST, 1, 7, 0, 0, some DHCPMessages.DHCPREQUEST, none, none⟩
      rfl rfl rfl).1 rfl

/-- C2, counterexample: with the source's default configuration the
in_range membership check accepts 10.15.0.5 (inside the /24 network
prefix), although that address lies outside the inclusive allocation
range 10.47.0.1 – 10.47.0.254, refuting "accepts an address only if it
lies within that inclusive range". -/
theorem in_range_accepts_ip_outside_range :
    defaultCfg.in_range 168755205 = true ∧
      ¬(defaultCfg.range.1 ≤ 168755205 ∧ 168755205 ≤ defaultCfg.range.2) := by
  constructor
  · decide
  · decide

/-- C2, amended: every lease ever created by the (spec-modelled)
find-or-allocate lies within the inclusive allocation range; the
configuration's in_range check, however, accepts exactly the addresses
of the network prefix (network address through broadcast address), not
those of the allocation range. -/
theorem lease_containment_and_in_range (cfg : DHCPServerConfiguration) (ip : Nat)
    (calls : List (Nat × Nat × Option String)) :
    (cfg.in_range ip = true ↔
      cfg.network.address ≤ ip ∧ ip ≤ cfg.network.broadcast_address) ∧
    leasesInRange (runCalls (emptyDB cfg) calls) := by
  constructor
  · simp [DHCPServerConfiguration.in_range, IPv4Network.mem]
  · exact (storeInv_runCalls calls (emptyDB cfg) (storeInv_emptyDB cfg)).2.2

/-- C3, counterexample: the two-address Scenario A range
[10.47.0.1, 10.47.0.2] has both endpoints inside the 10.47.0.0/24
network and exactly 2 usable addresses, yet check raises (the source
requires range[1] - range[0] ≥ 2, i.e. at least 3 addresses). -/
theorem check_rejects_two_address_range :
    (scenarioACfg.network.mem scenarioACfg.range.1 = true ∧
      scenarioACfg.network.mem scenarioACfg.range.2 = true ∧
      scenarioACfg.range.2 + 1 - scenarioACfg.range.1 = 2) ∧
    scenarioACfg.check = Except.error "Bad DHCP range: range is too small" := by
  constructor
  · exact ⟨by decide, by decide, by decide⟩
  · rfl

/-- C3, amended: check succeeds exactly when a server IP is set, both
range endpoints lie inside the network prefix, and the range difference
range.end - range.start is at least 2 (so at least 3 addresses); in
every other case it raises a fatal configuration error.  In particular
the 2-address range of Scenario A is rejected. -/
theorem check_ok_iff (c : DHCPServerConfiguration) :
    c.check = Except.ok () ↔
      (c.server_ip ≠ none ∧ c.network.mem c.range.1 = true ∧
        c.network.mem c.range.2 = true ∧ 2 ≤ c.dhcp_range_len) := by
  unfold DHCPServerConfiguration.check
  cases hs : c.server_ip with
  | none => simp
  | some x =>
    by_cases h1 : c.network.mem c.range.1
    · by_cases h2 : c.network.mem c.range.2
      · by_cases h3 : (2 : Int) ≤ c.dhcp_range_len
        · simp [h1, h2, h3, not_lt.mpr h3]
        · simp [h1, h2, h3, not_le.mp h3]
      · simp [h1, h2]
    · simp [h1]

/-- C4: repeated find-or-allocate calls for the same MAC return the IP
of the first successful call, whatever hint and hostname the repeat
carries, and leave the store unchanged — a second call never consumes
an additional address from the pool. -/
theorem find_or_register_idem (db : HostDatabase) (mac req_ip req_ip' : Nat)
    (hn hn' : Option String) (ip : Nat) (db' : HostDatabase)
    (h : db.find_or_register mac req_ip hn = (some ip, db')) :
    db'.find_or_register mac req_ip' hn' = (some ip, db') := by
  cases hg : db.get mac with
  | some l =>
    rw [find_or_register_of_get_some db mac req_ip hn l hg] at h
    injection h with h1 h2
    subst h2
    obtain rfl : l.ip = ip := Option.some.inj h1
    exact find_or_register_of_get_some db mac req_ip' hn' l hg
  | none =>
    cases ha : db.allocateIP req_ip with
    | none =>
      rw [find_or_register_of_get_none_none db mac req_ip hn hg ha] at h
      injection h with h1 h2
      cases h1
    | some ip0 =>
      rw [find_or_register_of_get_none_some db mac req_ip hn ip0 hg ha] at h
      injection h with h1 h2
      obtain rfl : ip0 = ip := Option.some.inj h1
      subst h2
      exact find_or_register_of_get_some _ mac req_ip' hn' ⟨mac, ip0, hn⟩
        (get_append_self db mac ip0 hn hg)

/-- Witness for C4 at a concrete input: after MAC 1 obtains 10.47.0.1, a
repeat call with a different hint and hostname returns the same IP and
the same store. -/
theorem find_or_register_idem_witness :
    HostDatabase.find_or_register ⟨scenarioACfg, [⟨1, 170852353, none⟩]⟩ 1 5 (some "h")
      = (some 170852353, ⟨scenarioACfg, [⟨1, 170852353, none⟩]⟩) :=
  find_or_register_idem (emptyDB scenarioACfg) 1 0 5 none (some "h") 170852353
    ⟨scenarioACfg, [⟨1, 170852353, none⟩]⟩ (by decide)

/-- C5: after any sequence of find-or-allocate calls starting from the
empty store, leases of distinct MACs never share an IP — the MAC → IP
map is injective over held leases. -/
theorem distinct_macs_distinct_ips (cfg : DHCPServerConfiguration)
    (calls : List (Nat × Nat × Option String)) :
    ∀ l1 ∈ (runCalls (emptyDB cfg) calls).leases,
      ∀ l2 ∈ (runCalls (emptyDB cfg) calls).leases,
        l1.mac ≠ l2.mac → l1.ip ≠ l2.ip := by
  obtain ⟨-, hip, -⟩ := storeInv_runCalls calls (emptyDB cfg) (storeInv_emptyDB cfg)
  intro l1 h1 l2 h2 hmac
  have hsym : Symmetric (fun (a b : Lease) => a.ip ≠ b.ip) := fun a b h => h.symm
  have hne : l1 ≠ l2 := fun he => hmac (by rw [he])
  exact List.Pairwise.forall hsym hip h1 h2 hne

/-- Witness for C5 at a concrete input: two Discover sequences for MACs
1 and 2 over the Scenario A range yield the distinct IPs 10.47.0.1 and
10.47.0.2. -/
theorem distinct_macs_distinct_ips_witness :
    (⟨1, 170852353, none⟩ : Lease).ip ≠ (⟨2, 170852354, none⟩ : Lease).ip :=
  distinct_macs_distinct_ips scenarioACfg [(1, 0, none), (2, 0, none)]
    ⟨1, 170852353, none⟩ (by decide) ⟨2, 170852354, none⟩ (by decide) (by decide)

/-- C6: a Discover processed by an open Session whose allocation fails
(pool exhausted) produces no broadcast at all — no Offer and no Nak —
and leaves the session and the store unchanged; the handler is a total
function, so processing of later datagrams continues. -/
theorem discover_exhausted_silent (s : Session) (db : HostDatabase) (p : DHCPPacket)
    (hopen : s.closed = false) (hop : p.op = DHCPOp.BOOTREQUEST)
    (hty : p.msg_type = some DHCPMessages.DHCPDISCOVER)
    (hex : (db.find_or_register p.chaddr (offerHint p) p.hostname).1 = none) :
    s.receive db p = ⟨s, db, [], [StoreOp.findOrRegister p.chaddr (offerHint p) p.hostname]⟩ := by
  have hrecv : s.receive db p = s.send_offer db p := by
    unfold Session.receive
    rw [hopen, hop, hty]
    rfl
  have hdb : db.find_or_register p.chaddr (offerHint p) p.hostname = (none, db) := by
    cases hg : db.get p.chaddr with
    | some l =>
      rw [find_or_register_of_get_some db p.chaddr (offerHint p) p.hostname l hg] at hex
      simp at hex
    | none =>
      cases ha : db.allocateIP (offerHint p) with
      | none => exact find_or_register_of_get_none_none db p.chaddr (offerHint p) p.hostname hg ha
      | some ip =>
        rw [find_or_register_of_get_none_some db p.chaddr (offerHint p) p.hostname ip hg ha] at hex
        simp at hex
  rw [hrecv]
  unfold Session.send_offer
  rw [hdb]

/-- Witness for C6 at a concrete input: with both Scenario A addresses
leased, a Discover from a third MAC gets no reply and changes nothing. -/
theorem discover_exhausted_silent_witness :
    Session.receive (mkSession 0)
        ⟨scenarioACfg, [⟨1, 170852353, none⟩, ⟨2, 170852354, none⟩]⟩
        ⟨DHCPOp.BOOTREQUEST, 3, 9, 0, 0, some DHCPMessages.DHCPDISCOVER, none, none⟩
      = ⟨mkSession 0, ⟨scenarioACfg, [⟨1, 170852353, none⟩, ⟨2, 170852354, none⟩]⟩, [],
          [StoreOp.findOrRegister 3 0 none]⟩ :=
  discover_exhausted_silent (mkSession 0)
    ⟨scenarioACfg, [⟨1, 170852353, none⟩, ⟨2, 170852354, none⟩]⟩
    ⟨DHCPOp.BOOTREQUEST, 3, 9, 0, 0, some DHCPMessages.DHCPDISCOVER, none, none⟩
    rfl rfl rfl (by decide)

/-- C7: an inbound client message whose type is neither Discover nor
Request (Decline, Release, Inform, a server-side type, or an
unrecognized code) is logged and discarded: the session is returned
unchanged (same closed flag, deadline and packet list), the store is
untouched, no broadcast is attempted and no store access happens; the
handler is total, so no exception escapes. -/
theorem unhandled_types_ignored (s : Session) (db : HostDatabase) (p : DHCPPacket)
    (hopen : s.closed = false) (hop : p.op = DHCPOp.BOOTREQUEST)
    (h1 : p.msg_type ≠ some DHCPMessages.DHCPDISCOVER)
    (h2 : p.msg_type ≠ some DHCPMessages.DHCPREQUEST) :
    s.receive db p = ⟨s, db, [], []⟩ := by
  unfold Session.receive
  rw [hopen, hop]
  cases hm : p.msg_type with
  | none => rfl
  | some t =>
    cases t with
    | DHCPDISCOVER => exact absurd hm h1
    | DHCPREQUEST => exact absurd hm h2
    | DHCPOFFER => rfl
    | DHCPDECLINE => rfl
    | DHCPACK => rfl
    | DHCPNAK => rfl
    | DHCPRELEASE => rfl
    | DHCPINFORM => rfl

/-- Witness for C7 at a concrete input: a Decline from MAC 1 leaves
everything unchanged. -/
theorem unhandled_types_ignored_witness :
    Session.receive (mkSession 0) (emptyDB defaultCfg)
        ⟨DHCPOp.BOOTREQUEST, 1, 7, 0, 0, some DHCPMessages.DHCPDECLINE, none, none⟩
      = ⟨mkSession 0, emptyDB defaultCfg, [], []⟩ :=
  unhandled_types_ignored (mkSession 0) (emptyDB defaultCfg)
    ⟨DHCPOp.BOOTREQUEST, 1, 7, 0, 0, some DHCPMessages.DHCPDECLINE, none, none⟩
    rfl rfl (by decide) (by decide)

/-- C8, counterexample: a Transaction created at time 0 and never closed
survives the sweep executed exactly at its deadline 0 + 30, because
is_done compares strictly (timeout < now); so "every sweep executed at
a time at or after t + 30 seconds removes it" fails at now = t + 30. -/
theorem sweep_at_deadline_keeps :
    (mkSession 0).closed = false ∧ (mkSession 0).timeout = 0 + 30 ∧
      sweepSessions [(1, mkSession 0)] 30 = [(1, mkSession 0)] := by
  refine ⟨rfl, rfl, ?_⟩
  decide

/-- C8, amended: a Transaction created at time t and never closed is
removed by every sweep executed strictly after t + 30 (at exactly
t + 30 it survives); the sweep also removes every closed Transaction,
and after a sweep no surviving Transaction is strictly past its
deadline. -/
theorem sweep_removes_expired (table : List (Nat × Session)) (now t id : Nat)
    (hlate : t + 30 < now) :
    ((id, mkSession t) ∉ sweepSessions table now) ∧
    (∀ e ∈ table, e.2.closed = true → e ∉ sweepSessions table now) ∧
    (∀ e ∈ sweepSessions table now, e.2.closed = false ∧ now ≤ e.2.timeout) := by
  refine ⟨?_, ?_, ?_⟩
  · intro hmem
    have hkeep := (List.mem_filter.mp hmem).2
    simp [Session.is_done, mkSession] at hkeep
    omega
  · intro e he hc hmem
    have hkeep := (List.mem_filter.mp hmem).2
    simp [Session.is_done, hc] at hkeep
  · intro e he
    have hkeep := (List.mem_filter.mp he).2
    simp [Session.is_done] at hkeep
    exact ⟨hkeep.1, by omega⟩

/-- Witness for C8 (amended) at a concrete input: the sweep at time 31
removes the transaction created at time 0. -/
theorem sweep_removes_expired_witness :
    (1, mkSession 0) ∉ sweepSessions [(1, mkSession 0)] 31 :=
  (sweep_removes_expired [(1, mkSession 0)] 31 0 1 (by decide)).1

/-- C9: a closed Session is terminal — receive returns immediately with
the session and the store unchanged, no broadcast and no lease-store
access. -/
theorem closed_session_terminal (s : Session) (db : HostDatabase) (p : DHCPPacket)
    (hclosed : s.closed = true) :
    s.receive db p = ⟨s, db, [], []⟩ := by
  unfold Session.receive
  rw [hclosed]
  rfl

/-- Witness for C9 at a concrete input: even a well-formed Discover
delivered to a closed session is ignored. -/
theorem closed_session_terminal_witness :
    Session.receive ⟨0, 30, true, []⟩ (emptyDB defaultCfg)
        ⟨DHCPOp.BOOTREQUEST, 1, 7, 0, 0, some DHCPMessages.DHCPDISCOVER, none, none⟩
      = ⟨⟨0, 30, true, []⟩, emptyDB defaultCfg, [], []⟩ :=
  closed_session_terminal ⟨0, 30, true, []⟩ (emptyDB defaultCfg)
    ⟨DHCPOp.BOOTREQUEST, 1, 7, 0, 0, some DHCPMessages.DHCPDISCOVER, none, none⟩ rfl

/-- C10: for a Discover handled by an open Session, when option 50 is
absent the hint passed to the Lease Store's find-or-allocate is the
packet's ciaddr field; when option 50 is present its value is the
hint. -/
theorem discover_hint_choice (s : Session) (db : HostDatabase) (p : DHCPPacket)
    (hopen : s.closed = false) (hop : p.op = DHCPOp.BOOTREQUEST)
    (hty : p.msg_type = some DHCPMessages.DHCPDISCOVER) :
    (p.requested_ip = none →
      (s.receive db p).ops = [StoreOp.findOrRegister p.chaddr p.ciaddr p.hostname]) ∧
    (∀ rip, p.requested_ip = some rip →
      (s.receive db p).ops = [StoreOp.findOrRegister p.chaddr rip p.hostname]) := by
  have hrecv : s.receive db p = s.send_offer db p := by
    unfold Session.receive
    rw [hopen, hop, hty]
    rfl
  have hops : (s.send_offer db p).ops
      = [StoreOp.findOrRegister p.chaddr (offerHint p) p.hostname] := by
    unfold Session.send_offer
    cases hfr : db.find_or_register p.chaddr (offerHint p) p.hostname with
    | mk fst snd => cases fst <;> rfl
  constructor
  · intro hnone
    have hhint : offerHint p = p.ciaddr := by
      unfold offerHint
      rw [hnone]
    rw [hrecv, hops, hhint]
  · intro rip hsome
    have hhint : offerHint p = rip := by
      unfold offerHint
      rw [hsome]
    rw [hrecv, hops, hhint]

/-- Witness for C10 at a concrete input: a Discover without option 50
and with ciaddr 42 passes 42 as the hint. -/
theorem discover_hint_choice_witness :
    (Session.receive (mkSession 0) (emptyDB defaultCfg)
        ⟨DHCPOp.BOOTREQUEST, 1, 7, 42, 0, some DHCPMessages.DHCPDISCOVER, none, none⟩).ops
      = [StoreOp.findOrRegister 1 42 none] :=
  (discover_hint_choice (mkSession 0) (emptyDB defaultCfg)
      ⟨DHCPOp.BOOTREQUEST, 1, 7, 42, 0, some DHCPMessages.DHCPDISCOVER, none, none⟩
      rfl rfl rfl).1 rfl

end NextDHCP
